import Mathlib

/-!
Verification of the KensMCP tool-dispatch engine and session-keyed event
delivery (src/server.py and src/http_server.py), as a shallow embedding.

Modelling conventions:
* Python argument dictionaries are association lists `Args` of `PyValue`s
  (the JSON values a request body can carry).  A `pyOther` value stands for
  any JSON value other than a string or an integer; its use in a string or
  arithmetic position raises, as in Python (booleans, which Python treats
  as integers, are subsumed under `pyInt` semantics only where a claim needs
  them; no claim does).
* Python exceptions are modelled as `Except String`; the carried message
  strings are descriptive stand-ins for CPython's messages (no claim
  depends on the precise wording of an exception message, only on the
  literal text the handlers themselves produce).
* Library calls with environment-dependent results (`eval`, `datetime.now`,
  `platform.*`, `os.getcwd`, `os.environ`, `hashlib`, `uuid.uuid4`) are
  supplied by an explicit `Oracle` record; theorems quantify over it.
  `base64` and `json`, whose outputs claims inspect, are implemented.
* In Python a non-string value raises at its first string operation
  (`.strip()`, `.upper()`, ...); the model raises at argument projection
  (`asStr`).  Both raise inside the same `try` region, so every claim sees
  the same observable behaviour.
* String case operations are modelled on ASCII (the inputs of every claim).
* The notes file is modelled by its content, an `Option String`.
* Numbers in the JSON model keep their source token (`jNum raw`); reprinting
  a parsed number is modelled as reprinting its token.
-/

/-- A JSON-ish Python value, as can occur in a tool-call argument mapping. -/
inductive PyValue where
  | pyStr (s : String)
  | pyInt (n : Int)
  | pyOther
deriving DecidableEq

open PyValue

/-- A Python argument dict: association list, insertion ordered. -/
abbrev Args := List (String × PyValue)

/-- Python `args.get(k, d)`: the value bound to `k`, else the default. -/
def argsGet (args : Args) (k : String) (d : PyValue) : PyValue :=
  match args.find? (fun p => p.1 == k) with
  | some p => p.2
  | none => d

/-- First string operation on a value: returns the string or raises
(`AttributeError`/`TypeError` in Python). -/
def asStr : PyValue → Except String String
  | pyStr s => .ok s
  | pyInt _ => .error ("AttributeError: int has no string methods")
  | pyOther => .error ("TypeError: value does not support string methods")

/-- Rendering a value inside an f-string (`str(v)`). -/
def pyRender : PyValue → String
  | pyStr s => s
  | pyInt n => toString n
  | pyOther => "<object>"

/-- Python `str.strip()` (whitespace at both ends). -/
def pyStrip (s : String) : String :=
  let l := (s.data.dropWhile Char.isWhitespace).reverse
  String.mk ((l.dropWhile Char.isWhitespace).reverse)

/-- Python `str.upper()` (ASCII model). -/
def pyUpper (s : String) : String := String.mk (s.data.map Char.toUpper)

/-- Python `str.lower()` (ASCII model). -/
def pyLower (s : String) : String := String.mk (s.data.map Char.toLower)

/-- Helper for `pyTitle`: `prev` records whether the previous character was
alphabetic. -/
def pyTitleGo : Bool → List Char → List Char
  | _, [] => []
  | prev, c :: cs =>
    if c.isAlpha then
      (if prev then c.toLower else c.toUpper) :: pyTitleGo true cs
    else
      c :: pyTitleGo false cs

/-- Python `str.title()` (ASCII model): capitalise the first letter of each
run of letters, lowercase the rest. -/
def pyTitle (s : String) : String := String.mk (pyTitleGo false s.data)

/-- Python `text[::-1]`. -/
def pyReverse (s : String) : String := String.mk s.data.reverse

/-- Python `len(text.split())`: number of maximal non-whitespace runs. -/
def pyWordCount (s : String) : Nat :=
  ((s.split Char.isWhitespace).filter (fun w => w ≠ "")).length

/-- Is `c` in `[a-z0-9]`? (the character class kept by the slugify regex). -/
def slugKeep (c : Char) : Bool :=
  (('a' ≤ c && c ≤ 'z') || ('0' ≤ c && c ≤ '9'))

/-- `re.sub(r'[^a-z0-9]+', '-', ·)`: replace each maximal run of dropped
characters by a single dash.  `dash` records whether a pending run is open. -/
def slugGo : Bool → List Char → List Char
  | _, [] => []
  | dash, c :: cs =>
    if slugKeep c then c :: slugGo false cs
    else if dash then slugGo true cs
    else '-' :: slugGo true cs

/-- Python `str.strip('-')`. -/
def stripDash (l : List Char) : List Char :=
  ((l.dropWhile (· = '-')).reverse.dropWhile (· = '-')).reverse

/-- `re.sub(r'[^a-z0-9]+', '-', text.lower()).strip('-')`. -/
def pySlugify (s : String) : String :=
  String.mk (stripDash (slugGo false (pyLower s).data))

/-- Python `text[:n]` on code points. -/
def pySlice (s : String) (n : Nat) : String := String.mk (s.data.take n)

/-- Python `sep.join(xs)`. -/
def strJoin (sep : String) : List String → String
  | [] => ""
  | a :: rest => rest.foldl (fun acc x => acc ++ (sep ++ x)) a

/-- Does `pat` occur at the start of `l`? -/
def listStarts [DecidableEq α] : List α → List α → Bool
  | [], _ => true
  | _ :: _, [] => false
  | p :: ps, c :: cs => p = c && listStarts ps cs

/-- Does `pat` occur anywhere in `l`? -/
def listHas [DecidableEq α] (pat : List α) : List α → Bool
  | [] => listStarts pat []
  | c :: cs => listStarts pat (c :: cs) || listHas pat cs

/-- Case-sensitive substring test (Python `pat in s`). -/
def strContains (s pat : String) : Bool := listHas pat.data s.data

/-- Case-sensitive "starts with" test (Python `s.startswith(pat)`). -/
def strStarts (s pat : String) : Bool := listStarts pat.data s.data

/-- The JSON documents handled by `json.loads`/`json.dumps` in the handlers. -/
inductive Json where
  | jNull
  | jBool (b : Bool)
  | jNum (raw : String)
  | jStr (s : String)
  | jArr (xs : List Json)
  | jObj (fields : List (String × Json))

open Json

/-- One hex digit (lowercase, as CPython emits in \u escapes). -/
def hexDigit (n : Nat) : Char :=
  if n < 10 then Char.ofNat ('0'.toNat + n) else Char.ofNat ('a'.toNat + (n - 10))

/-- Four-digit hex rendering of `n < 0x10000`. -/
def hex4 (n : Nat) : String :=
  String.mk [hexDigit (n / 4096 % 16), hexDigit (n / 256 % 16),
             hexDigit (n / 16 % 16), hexDigit (n % 16)]

/-- CPython `ensure_ascii` escape of one character inside a JSON string. -/
def jsonEscapeChar (c : Char) : String :=
  if c = '"' then "\\\""
  else if c = '\\' then "\\\\"
  else if c = '\n' then "\\n"
  else if c = '\r' then "\\r"
  else if c = '\t' then "\\t"
  else if c.toNat = 8 then "\\b"
  else if c.toNat = 12 then "\\f"
  else if c.toNat < 32 then "\\u" ++ hex4 c.toNat
  else if c.toNat < 127 then String.singleton c
  else if c.toNat < 65536 then "\\u" ++ hex4 c.toNat
  else
    "\\u" ++ (hex4 (55296 + (c.toNat - 65536) / 1024) ++
      ("\\u" ++ hex4 (56320 + (c.toNat - 65536) % 1024)))

/-- A JSON string literal as `json.dumps` prints it. -/
def jsonQuote (s : String) : String :=
  "\"" ++ ((s.data.map jsonEscapeChar).foldl (· ++ ·) "" ++ "\"")

/-- `n` copies of one space (the indentation of `json.dumps(·, indent=2)`). -/
def spaces (n : Nat) : String := String.mk (List.replicate n ' ')

mutual

/-- `json.dumps(v, separators=(",", ":"))` (the `minify` branch). -/
def dumpMin : Json → String
  | jNull => "null"
  | jBool true => "true"
  | jBool false => "false"
  | jNum raw => raw
  | jStr s => jsonQuote s
  | jArr xs => "[" ++ (dumpMinArr xs ++ "]")
  | jObj fields => "\x7b" ++ (dumpMinObj fields ++ "\x7d")

def dumpMinArr : List Json → String
  | [] => ""
  | [x] => dumpMin x
  | x :: y :: rest => dumpMin x ++ ("," ++ dumpMinArr (y :: rest))

def dumpMinObj : List (String × Json) → String
  | [] => ""
  | [(k, v)] => jsonQuote k ++ (":" ++ dumpMin v)
  | (k, v) :: f :: rest =>
    jsonQuote k ++ (":" ++ (dumpMin v ++ ("," ++ dumpMinObj (f :: rest))))

end

mutual

/-- `json.dumps(v, indent=2)` at nesting level `lv`. -/
def dumpInd (lv : Nat) : Json → String
  | jNull => "null"
  | jBool true => "true"
  | jBool false => "false"
  | jNum raw => raw
  | jStr s => jsonQuote s
  | jArr [] => "[]"
  | jArr (x :: xs) =>
    "[\n" ++ (dumpIndArr lv (x :: xs) ++ ("\n" ++ (spaces (2 * lv) ++ "]")))
  | jObj [] => "\x7b\x7d"
  | jObj (f :: fs) =>
    "\x7b\n" ++ (dumpIndObj lv (f :: fs) ++ ("\n" ++ (spaces (2 * lv) ++ "\x7d")))

def dumpIndArr (lv : Nat) : List Json → String
  | [] => ""
  | [x] => spaces (2 * (lv + 1)) ++ dumpInd (lv + 1) x
  | x :: y :: rest =>
    spaces (2 * (lv + 1)) ++
      (dumpInd (lv + 1) x ++ (",\n" ++ dumpIndArr lv (y :: rest)))

def dumpIndObj (lv : Nat) : List (String × Json) → String
  | [] => ""
  | [(k, v)] => spaces (2 * (lv + 1)) ++ (jsonQuote k ++ (": " ++ dumpInd (lv + 1) v))
  | (k, v) :: f :: rest =>
    spaces (2 * (lv + 1)) ++
      (jsonQuote k ++ (": " ++ (dumpInd (lv + 1) v ++ (",\n" ++ dumpIndObj lv (f :: rest)))))

end

/-- JSON whitespace skip. -/
def skipWs : List Char → List Char :=
  List.dropWhile (fun c => c = ' ' || c = '\t' || c = '\n' || c = '\r')

/-- Characters a number token may consist of. -/
def numChar (c : Char) : Bool :=
  c.isDigit || c = '-' || c = '+' || c = '.' || c = 'e' || c = 'E'

/-- Take `[0-9]+`, returning the digits and the rest. -/
def takeDigits (cs : List Char) : List Char × List Char :=
  (cs.takeWhile Char.isDigit, cs.dropWhile Char.isDigit)

/-- Check `(0|[1-9][0-9]*)` then continue with `rest`. -/
def numIntPartOk (cs : List Char) (k : List Char → Bool) : Bool :=
  match cs with
  | '0' :: rest => k rest
  | c :: _ =>
    if c.isDigit then
      let (ds, rest) := takeDigits cs
      ds ≠ [] && k rest
    else false
  | [] => false

/-- Check `(\.[0-9]+)?` then continue. -/
def numFracOk (cs : List Char) (k : List Char → Bool) : Bool :=
  match cs with
  | '.' :: rest =>
    let (ds, rest2) := takeDigits rest
    ds ≠ [] && k rest2
  | _ => k cs

/-- Check `([eE][+-]?[0-9]+)?` at the end of the token. -/
def numExpOk (cs : List Char) : Bool :=
  match cs with
  | [] => true
  | e :: rest =>
    if e = 'e' || e = 'E' then
      let rest2 := match rest with
        | '+' :: r => r
        | '-' :: r => r
        | r => r
      let (ds, rest3) := takeDigits rest2
      ds ≠ [] && rest3 = []
    else false

/-- The JSON number grammar `-?(0|[1-9]\d*)(\.\d+)?([eE][+-]?\d+)?`. -/
def numGrammarOk (cs : List Char) : Bool :=
  let body := match cs with
    | '-' :: rest => rest
    | rest => rest
  numIntPartOk body (fun r => numFracOk r numExpOk)

/-- One hex digit value. -/
def hexVal (c : Char) : Option Nat :=
  let n := c.toNat
  if 48 ≤ n && n ≤ 57 then some (n - 48)
  else if 97 ≤ n && n ≤ 102 then some (n - 87)
  else if 65 ≤ n && n ≤ 70 then some (n - 55)
  else none

/-- Parse the body of a JSON string literal (after the opening quote). -/
def parseStr : List Char → Except String (String × List Char)
  | [] => .error ("Unterminated string")
  | '"' :: rest => .ok ("", rest)
  | '\\' :: rest =>
    match rest with
    | [] => .error ("Unterminated string escape")
    | e :: rest2 =>
      let simpler : Option Char :=
        if e = '"' then some '"'
        else if e = '\\' then some '\\'
        else if e = '/' then some '/'
        else if e = 'b' then some (Char.ofNat 8)
        else if e = 'f' then some (Char.ofNat 12)
        else if e = 'n' then some '\n'
        else if e = 'r' then some '\r'
        else if e = 't' then some '\t'
        else none
      match simpler with
      | some c => do
        let (s, r) ← parseStr rest2
        .ok (String.singleton c ++ s, r)
      | none =>
        if e = 'u' then
          match rest2 with
          | h1 :: h2 :: h3 :: h4 :: rest3 =>
            match hexVal h1, hexVal h2, hexVal h3, hexVal h4 with
            | some a, some b, some c, some d => do
              let (s, r) ← parseStr rest3
              .ok (String.singleton (Char.ofNat (a * 4096 + b * 256 + c * 16 + d)) ++ s, r)
            | _, _, _, _ => .error ("Invalid \\u escape")
          | _ => .error ("Invalid \\u escape")
        else .error ("Invalid escape")
  | c :: rest =>
    if c.toNat < 32 then .error ("Invalid control character in string")
    else do
      let (s, r) ← parseStr rest
      .ok (String.singleton c ++ s, r)

mutual

/-- Recursive-descent JSON value parser (fuel-bounded; the initial fuel of
`parseJson` exceeds any possible recursion depth). -/
def parseVal (fuel : Nat) (cs : List Char) : Except String (Json × List Char) :=
  match fuel with
  | 0 => .error ("Expecting value")
  | fuel + 1 =>
    match skipWs cs with
    | [] => .error ("Expecting value")
    | c :: rest =>
      if c = 'n' then
        match rest with
        | 'u' :: 'l' :: 'l' :: r => .ok (jNull, r)
        | _ => .error ("Expecting value")
      else if c = 't' then
        match rest with
        | 'r' :: 'u' :: 'e' :: r => .ok (jBool true, r)
        | _ => .error ("Expecting value")
      else if c = 'f' then
        match rest with
        | 'a' :: 'l' :: 's' :: 'e' :: r => .ok (jBool false, r)
        | _ => .error ("Expecting value")
      else if c = '"' then do
        let (s, r) ← parseStr rest
        .ok (jStr s, r)
      else if c = '[' then
        match skipWs rest with
        | ']' :: r => .ok (jArr [], r)
        | r => do
          let (xs, r2) ← parseArrItems fuel r
          .ok (jArr xs, r2)
      else if c = '\x7b' then
        match skipWs rest with
        | '\x7d' :: r => .ok (jObj [], r)
        | r => do
          let (fs, r2) ← parseObjItems fuel r
          .ok (jObj fs, r2)
      else if c.isDigit || c = '-' then
        let tok := (c :: rest).takeWhile numChar
        let r := (c :: rest).dropWhile numChar
        if numGrammarOk tok then .ok (jNum (String.mk tok), r)
        else .error ("Expecting value")
      else .error ("Expecting value")

/-- Items of a non-empty JSON array. -/
def parseArrItems (fuel : Nat) (cs : List Char) : Except String (List Json × List Char) :=
  match fuel with
  | 0 => .error ("Expecting value")
  | fuel + 1 => do
    let (x, r) ← parseVal fuel cs
    match skipWs r with
    | ',' :: r2 => do
      let (xs, r3) ← parseArrItems fuel r2
      .ok (x :: xs, r3)
    | ']' :: r2 => .ok ([x], r2)
    | _ => .error ("Expecting ',' delimiter")

/-- Members of a non-empty JSON object. -/
def parseObjItems (fuel : Nat) (cs : List Char) : Except String (List (String × Json) × List Char) :=
  match fuel with
  | 0 => .error ("Expecting value")
  | fuel + 1 =>
    match skipWs cs with
    | '"' :: r => do
      let (k, r2) ← parseStr r
      match skipWs r2 with
      | ':' :: r3 => do
        let (v, r4) ← parseVal fuel r3
        match skipWs r4 with
        | ',' :: r5 => do
          let (fs, r6) ← parseObjItems fuel r5
          .ok ((k, v) :: fs, r6)
        | '\x7d' :: r5 => .ok ([(k, v)], r5)
        | _ => .error ("Expecting ',' delimiter")
      | _ => .error ("Expecting ':' delimiter")
    | _ => .error ("Expecting property name enclosed in double quotes")

end

/-- `json.loads`: parse a complete document, requiring only whitespace after
the value. -/
def parseJson (s : String) : Except String Json := do
  let (v, r) ← parseVal (s.length + 2) s.data
  match skipWs r with
  | [] => .ok v
  | _ => .error ("Extra data")

/-- Python dict lookup `d[k]` / `k in d` (first binding; real dicts have
unique keys). -/
def dictGet {β : Type} (d : List (String × β)) (k : String) : Option β :=
  (d.find? (fun p => p.1 == k)).map (fun p => p.2)

/-- Python `k in d`. -/
def dictHas {β : Type} (d : List (String × β)) (k : String) : Bool :=
  (dictGet d k).isSome

/-- Python `d[k] = v`: replace the binding in place, else append. -/
def dictSet {β : Type} : List (String × β) → String → β → List (String × β)
  | [], k, v => [(k, v)]
  | (k', v') :: rest, k, v =>
    if k' == k then (k', v) :: rest else (k', v') :: dictSet rest k v

/-- Python `del d[k]` with `k` present: drop the binding. -/
def dictErase {β : Type} : List (String × β) → String → List (String × β)
  | [], _ => []
  | (k', v') :: rest, k =>
    if k' == k then rest else (k', v') :: dictErase rest k

/-- UTF-8 encoding of one code point (`str.encode()`). -/
def utf8EncodeChar (c : Char) : List Nat :=
  let n := c.toNat
  if n < 128 then [n]
  else if n < 2048 then [192 + n / 64, 128 + n % 64]
  else if n < 65536 then [224 + n / 4096, 128 + n / 64 % 64, 128 + n % 64]
  else [240 + n / 262144, 128 + n / 4096 % 64, 128 + n / 64 % 64, 128 + n % 64]

/-- UTF-8 encoding of a string, as a byte list. -/
def utf8Encode (s : String) : List Nat := s.data.flatMap utf8EncodeChar

/-- Is `b` a UTF-8 continuation byte? -/
def utf8Cont (b : Nat) : Bool := 128 ≤ b && b < 192

/-- UTF-8 decoding (`bytes.decode()`, strict): rejects bad continuation
bytes, overlong forms, surrogates and out-of-range code points. -/
def utf8Decode : List Nat → Except String String
  | [] => .ok ""
  | b :: rest =>
    if b < 128 then do
      let s ← utf8Decode rest
      .ok (String.singleton (Char.ofNat b) ++ s)
    else if b < 192 then .error ("UnicodeDecodeError: invalid start byte")
    else if b < 224 then
      match rest with
      | c1 :: rest2 =>
        if utf8Cont c1 then
          let n := (b - 192) * 64 + (c1 - 128)
          if n < 128 then .error ("UnicodeDecodeError: overlong encoding")
          else do
            let s ← utf8Decode rest2
            .ok (String.singleton (Char.ofNat n) ++ s)
        else .error ("UnicodeDecodeError: invalid continuation byte")
      | _ => .error ("UnicodeDecodeError: unexpected end of data")
    else if b < 240 then
      match rest with
      | c1 :: c2 :: rest2 =>
        if utf8Cont c1 && utf8Cont c2 then
          let n := (b - 224) * 4096 + ((c1 - 128) * 64 + (c2 - 128))
          if n < 2048 then .error ("UnicodeDecodeError: overlong encoding")
          else if 55296 ≤ n && n < 57344 then
            .error ("UnicodeDecodeError: surrogate code point")
          else do
            let s ← utf8Decode rest2
            .ok (String.singleton (Char.ofNat n) ++ s)
        else .error ("UnicodeDecodeError: invalid continuation byte")
      | _ => .error ("UnicodeDecodeError: unexpected end of data")
    else if b < 248 then
      match rest with
      | c1 :: c2 :: c3 :: rest2 =>
        if utf8Cont c1 && utf8Cont c2 && utf8Cont c3 then
          let n := (b - 240) * 262144 +
            ((c1 - 128) * 4096 + ((c2 - 128) * 64 + (c3 - 128)))
          if n < 65536 then .error ("UnicodeDecodeError: overlong encoding")
          else if n > 1114111 then .error ("UnicodeDecodeError: code point out of range")
          else do
            let s ← utf8Decode rest2
            .ok (String.singleton (Char.ofNat n) ++ s)
        else .error ("UnicodeDecodeError: invalid continuation byte")
      | _ => .error ("UnicodeDecodeError: unexpected end of data")
    else .error ("UnicodeDecodeError: invalid start byte")

/-- The base64 digit with index `i < 64`. -/
def b64Char (i : Nat) : Char :=
  if i < 26 then Char.ofNat ('A'.toNat + i)
  else if i < 52 then Char.ofNat ('a'.toNat + (i - 26))
  else if i < 62 then Char.ofNat ('0'.toNat + (i - 52))
  else if i = 62 then '+'
  else '/'

/-- Index of a base64 digit. -/
def b64Val (c : Char) : Option Nat :=
  if 'A' ≤ c && c ≤ 'Z' then some (c.toNat - 'A'.toNat)
  else if 'a' ≤ c && c ≤ 'z' then some (c.toNat - 'a'.toNat + 26)
  else if '0' ≤ c && c ≤ '9' then some (c.toNat - '0'.toNat + 52)
  else if c = '+' then some 62
  else if c = '/' then some 63
  else none

/-- `base64.b64encode` on a byte list. -/
def b64encodeBytes : List Nat → String
  | [] => ""
  | [b1] =>
    String.mk [b64Char (b1 / 4), b64Char (b1 % 4 * 16), '=', '=']
  | [b1, b2] =>
    String.mk [b64Char (b1 / 4), b64Char (b1 % 4 * 16 + b2 / 16),
               b64Char (b2 % 16 * 4), '=']
  | b1 :: b2 :: b3 :: rest =>
    String.mk [b64Char (b1 / 4), b64Char (b1 % 4 * 16 + b2 / 16),
               b64Char (b2 % 16 * 4 + b3 / 64), b64Char (b3 % 64)] ++
      b64encodeBytes rest

/-- Decode base64 quads (after discarding foreign characters, as
`binascii.a2b_base64` does); padding may only close the final quad. -/
def b64Quads : List Char → Except String (List Nat)
  | [] => .ok []
  | c1 :: c2 :: c3 :: c4 :: rest =>
    match b64Val c1, b64Val c2 with
    | some v1, some v2 =>
      if c3 = '=' then
        if c4 = '=' && rest = [] then .ok [v1 * 4 + v2 / 16]
        else .error ("binascii.Error: Invalid base64-encoded string")
      else
        match b64Val c3 with
        | some v3 =>
          if c4 = '=' then
            if rest = [] then .ok [v1 * 4 + v2 / 16, v2 % 16 * 16 + v3 / 4]
            else .error ("binascii.Error: Invalid base64-encoded string")
          else
            match b64Val c4 with
            | some v4 => do
              let bs ← b64Quads rest
              .ok ((v1 * 4 + v2 / 16) :: (v2 % 16 * 16 + v3 / 4) :: (v3 % 4 * 64 + v4) :: bs)
            | none => .error ("binascii.Error: Invalid base64-encoded string")
        | none => .error ("binascii.Error: Invalid base64-encoded string")
    | _, _ => .error ("binascii.Error: Invalid base64-encoded string")
  | _ => .error ("binascii.Error: Invalid padding")

/-- `base64.b64decode(text.encode())` on the characters of `text`. -/
def b64decodeBytes (s : String) : Except String (List Nat) :=
  b64Quads (s.data.filter (fun c => (b64Val c).isSome || c = '='))

/-- `base64.b64encode(text.encode()).decode()`. -/
def b64encodeStr (s : String) : String := b64encodeBytes (utf8Encode s)

/-- `base64.b64decode(text.encode()).decode()`. -/
def b64decodeStr (s : String) : Except String String := do
  let bs ← b64decodeBytes s
  utf8Decode bs

/-- A stored note, as `note_create` writes it. -/
structure Note where
  content : String
  created_at : String
  updated_at : String
deriving DecidableEq

/-- The in-memory notes mapping (Python dict, insertion ordered). -/
abbrev NotesStore := List (String × Note)

/-- The JSON document `save_notes` produces for a store. -/
def notesToJson (notes : NotesStore) : Json :=
  jObj (notes.map (fun p =>
    (p.1, jObj [("content", jStr p.2.content),
                ("created_at", jStr p.2.created_at),
                ("updated_at", jStr p.2.updated_at)])))

/-- `json.dump(notes, f, indent=2)`: the exact file content written. -/
def serializeNotes (notes : NotesStore) : String :=
  dumpInd 0 (notesToJson notes)

/-- Read a note object back from its JSON form.  The model restricts the
document to the shape `note_create` writes (three string fields); a file of
any other shape is treated as unreadable.  (Python would load such a file
and only fault later inside a handler; both paths end in a single caught
error item, so no claim distinguishes them.) -/
def jsonToNote : Json → Option Note
  | jObj fields =>
    match dictGet fields "content", dictGet fields "created_at",
          dictGet fields "updated_at" with
    | some (jStr c), some (jStr cr), some (jUp) =>
      match jUp with
      | jStr u => some ⟨c, cr, u⟩
      | _ => none
    | _, _, _ => none
  | _ => none

/-- Read a whole notes document. -/
def jsonToNotes : Json → Option NotesStore
  | jObj fields =>
    fields.foldr (fun p acc => do
      let n ← jsonToNote p.2
      let rest ← acc
      some ((p.1, n) :: rest)) (some [])
  | _ => none

/-- `load_notes()`: read the file if it exists; any fault (including a parse
failure of a half-written file) yields the empty store. -/
def loadNotes (file : Option String) : NotesStore :=
  match file with
  | none => []
  | some content =>
    match parseJson content with
    | .ok v =>
      match jsonToNotes v with
      | some notes => notes
      | none => []
    | .error _ => []

/-- One unit of tool output (`TextContent`). -/
structure ContentItem where
  type : String
  text : String
deriving DecidableEq

/-- `TextContent(type="text", text=s)`. -/
def mkText (s : String) : ContentItem := ⟨"text", s⟩

/-- Environment-dependent library results consumed by the handlers.
`evalResult e` is the rendered value of `eval(e, ...)` in the calculator's
restricted namespace, or the fault it raises; `hashHex a t` is
`hashlib.<a>(t.encode()).hexdigest()`; `uuid4 i` is the `i`-th fresh UUID. -/
structure Oracle where
  evalResult : String → Except String String
  now : String
  tzname : Option String
  osSystem : String
  osRelease : String
  osVersion : String
  osMachine : String
  osProcessor : String
  pyVersion : String
  cwd : String
  envGet : String → Option String
  hashHex : String → String → String
  uuid4 : Nat → String

/-- `_handle_calculate`: clean the expression, evaluate it in the safe
namespace, and render; any fault is caught inside the handler. -/
def handleCalculate (os : Oracle) (args : Args) : Except String (List ContentItem) :=
  let expression := argsGet args ("expression") (pyStr "")
  match asStr expression with
  | .error e => .ok [mkText ("❌ Invalid expression: " ++ e)]
  | .ok s =>
    match os.evalResult (s.replace ("^") ("**")) with
    | .ok r => .ok [mkText ("🔢 " ++ (s ++ (" = " ++ r)))]
    | .error e => .ok [mkText ("❌ Invalid expression: " ++ e)]

/-- The `results` dict of `_handle_text_transform`, indexed by operation. -/
def transformResult (text : String) (op : String) : Option String :=
  if op = "uppercase" then some (pyUpper text)
  else if op = "lowercase" then some (pyLower text)
  else if op = "titlecase" then some (pyTitle text)
  else if op = "reverse" then some (pyReverse text)
  else if op = "word_count" then some (toString (pyWordCount text))
  else if op = "char_count" then some (toString text.length)
  else if op = "slugify" then some (pySlugify text)
  else none

/-- `_handle_text_transform`: all seven transforms are computed before the
operation is looked up, so a non-string `text` faults regardless of the
operation. -/
def handleTextTransform (os : Oracle) (args : Args) : Except String (List ContentItem) := do
  let text ← asStr (argsGet args ("text") (pyStr ""))
  let operation := argsGet args ("operation") (pyStr "")
  match operation with
  | pyStr op =>
    match transformResult text op with
    | some r => .ok [mkText ("📝 Result: " ++ r)]
    | none => .ok [mkText ("❌ Unknown operation: " ++ op)]
  | v => .ok [mkText ("❌ Unknown operation: " ++ pyRender v)]

/-- `_handle_system_info`: assemble the requested sections in source order
and render them with `json.dumps(info, indent=2)`. -/
def handleSystemInfo (os : Oracle) (args : Args) : Except String (List ContentItem) :=
  let infoType : Option String :=
    match argsGet args ("info_type") (pyStr "all") with
    | pyStr s => some s
    | _ => none
  let want (k : String) : Bool := infoType = some k || infoType = some "all"
  let timePart : List (String × Json) :=
    if want ("time") then
      [("current_time", jStr os.now),
       ("timezone", match os.tzname with | some t => jStr t | none => jNull)]
    else []
  let platPart : List (String × Json) :=
    if want ("platform") then
      [("system", jStr os.osSystem), ("release", jStr os.osRelease),
       ("version", jStr os.osVersion), ("machine", jStr os.osMachine),
       ("processor", jStr os.osProcessor), ("python_version", jStr os.pyVersion)]
    else []
  let cwdPart : List (String × Json) :=
    if want ("cwd") then [("working_directory", jStr os.cwd)] else []
  let envPart : List (String × Json) :=
    if want ("env") then
      [("environment", jObj (["USER", "HOME", "SHELL", "LANG", "PATH"].map
        (fun k => (k, jStr ((os.envGet k).getD ("N/A"))))))]
    else []
  let info := timePart ++ platPart ++ cwdPart ++ envPart
  .ok [mkText ("💻 System Information:\n```json\n" ++ (dumpInd 0 (jObj info) ++ "\n```"))]

/-- `_handle_note_create`: load, bind `notes[title]`, save. -/
def handleNoteCreate (os : Oracle) (args : Args) (file : Option String) :
    Except String (List ContentItem × Option String) := do
  let title0 ← asStr (argsGet args ("title") (pyStr ""))
  let title := pyStrip title0
  let content ← asStr (argsGet args ("content") (pyStr ""))
  if title = "" then
    .ok ([mkText ("❌ Note title is required")], file)
  else
    let notes := loadNotes file
    let notes2 := dictSet notes title ⟨content, os.now, os.now⟩
    .ok ([mkText ("✅ Note '" ++ (title ++ "' saved successfully!"))],
         some (serializeNotes notes2))

/-- One listing line of `_handle_note_list`. -/
def noteListLine (p : String × Note) : String :=
  let preview := pySlice p.2.content 50 ++
    (if p.2.content.length > 50 then "..." else "")
  "• **" ++ (p.1 ++ ("** (created: " ++ (pySlice p.2.created_at 10 ++ (")\n  " ++ (preview ++ "\n")))))

/-- `_handle_note_list`. -/
def handleNoteList (os : Oracle) (args : Args) (file : Option String) :
    Except String (List ContentItem × Option String) :=
  let notes := loadNotes file
  match notes with
  | [] => .ok ([mkText ("📭 No notes found. Create one with note_create!")], file)
  | _ =>
    let lines := "📒 **Your Notes:**\n" :: notes.map noteListLine
    .ok ([mkText (strJoin ("\n") lines)], file)

/-- `_handle_note_read`. -/
def handleNoteRead (os : Oracle) (args : Args) (file : Option String) :
    Except String (List ContentItem × Option String) := do
  let title0 ← asStr (argsGet args ("title") (pyStr ""))
  let title := pyStrip title0
  let notes := loadNotes file
  match dictGet notes title with
  | none => .ok ([mkText ("❌ Note '" ++ (title ++ "' not found"))], file)
  | some note =>
    .ok ([mkText ("📖 **" ++ (title ++ ("**\n\n" ++ (note.content ++
      ("\n\n_Created: " ++ (note.created_at ++ "_"))))))], file)

/-- `_handle_note_delete`. -/
def handleNoteDelete (os : Oracle) (args : Args) (file : Option String) :
    Except String (List ContentItem × Option String) := do
  let title0 ← asStr (argsGet args ("title") (pyStr ""))
  let title := pyStrip title0
  let notes := loadNotes file
  if dictHas notes title then
    let notes2 := dictErase notes title
    .ok ([mkText ("🗑️ Note '" ++ (title ++ "' deleted successfully!"))],
         some (serializeNotes notes2))
  else
    .ok ([mkText ("❌ Note '" ++ (title ++ "' not found"))], file)

/-- `_handle_generate_hash`: the algorithm is checked against the table
before `text.encode()` runs. -/
def handleGenerateHash (os : Oracle) (args : Args) : Except String (List ContentItem) :=
  let textV := argsGet args ("text") (pyStr "")
  match argsGet args ("algorithm") (pyStr "sha256") with
  | pyStr alg =>
    if alg = "md5" || alg = "sha1" || alg = "sha256" || alg = "sha512" then do
      let text ← asStr textV
      Except.ok [mkText ("🔐 " ++ (pyUpper alg ++ (": `" ++ (os.hashHex alg text ++ "`"))))]
    else Except.ok [mkText ("❌ Unknown algorithm: " ++ alg)]
  | v => Except.ok [mkText ("❌ Unknown algorithm: " ++ pyRender v)]

/-- `_handle_generate_uuid`: `min(args.get("count", 1), 10)` faults on a
non-integer; a non-positive count yields an empty enumeration. -/
def handleGenerateUuid (os : Oracle) (args : Args) : Except String (List ContentItem) := do
  let count : Int ←
    match argsGet args ("count") (pyInt 1) with
    | pyInt n => Except.ok (min n 10)
    | _ => Except.error ("TypeError: int comparison with non-int")
  let uuids := (List.range count.toNat).map os.uuid4
  if count = 1 then
    .ok [mkText ("🆔 UUID: `" ++ (os.uuid4 0 ++ "`"))]
  else
    let formatted := strJoin ("\n") (uuids.enum.map
      (fun p => "  " ++ (toString (p.1 + 1) ++ (". `" ++ (p.2 ++ "`")))))
    .ok [mkText ("🆔 Generated " ++ (toString count ++ (" UUIDs:\n" ++ formatted)))]

/-- `_handle_json_format`: only `json.JSONDecodeError` is caught inside the
handler; `json.loads` of a non-string raises `TypeError`, which escapes to
the dispatch boundary. -/
def handleJsonFormat (os : Oracle) (args : Args) : Except String (List ContentItem) :=
  let opStr : Option String :=
    match argsGet args ("operation") (pyStr "format") with
    | pyStr s => some s
    | _ => none
  match argsGet args ("json_string") (pyStr "") with
  | pyStr s =>
    match parseJson s with
    | .error e => .ok [mkText ("❌ Invalid JSON: " ++ e)]
    | .ok parsed =>
      if opStr = some "validate" then .ok [mkText ("✅ Valid JSON!")]
      else if opStr = some "minify" then
        .ok [mkText ("📦 Minified:\n`" ++ (dumpMin parsed ++ "`"))]
      else
        .ok [mkText ("📋 Formatted:\n```json\n" ++ (dumpInd 0 parsed ++ "\n```"))]
  | _ => .error ("TypeError: the JSON object must be str, bytes or bytearray")

/-- `_handle_base64_convert`: every operation other than `"encode"` takes
the decode branch; all faults are caught inside the handler. -/
def handleBase64Convert (os : Oracle) (args : Args) : Except String (List ContentItem) :=
  let textV := argsGet args ("text") (pyStr "")
  let opStr : Option String :=
    match argsGet args ("operation") (pyStr "encode") with
    | pyStr s => some s
    | _ => none
  if opStr = some "encode" then
    match asStr textV with
    | .ok t => .ok [mkText ("🔤 Encoded:\n`" ++ (b64encodeStr t ++ "`"))]
    | .error e => .ok [mkText ("❌ Error: " ++ e)]
  else
    match asStr textV with
    | .ok t =>
      match b64decodeStr t with
      | .ok d => .ok [mkText ("🔤 Decoded:\n`" ++ (d ++ "`"))]
      | .error e => .ok [mkText ("❌ Error: " ++ e)]
    | .error e => .ok [mkText ("❌ Error: " ++ e)]

/-- The uniform handler type the Dispatch Engine invokes: oracle, argument
mapping and notes-file content in, content items and (possibly rewritten)
file content out, or a raised fault. -/
abbrev Handler := Oracle → Args → Option String →
  Except String (List ContentItem × Option String)

/-- Lift a handler that does not touch the notes file. -/
def pureHandler (h : Oracle → Args → Except String (List ContentItem)) : Handler :=
  fun os args file => (h os args).map (fun items => (items, file))

/-- The body of `call_tool`'s `try` block: the name-dispatch chain, in
source order, with the unknown-tool report as the final `else`. -/
def dispatchRaw (os : Oracle) (name : String) (args : Args) (file : Option String) :
    Except String (List ContentItem × Option String) :=
  if name = "calculate" then pureHandler handleCalculate os args file
  else if name = "text_transform" then pureHandler handleTextTransform os args file
  else if name = "system_info" then pureHandler handleSystemInfo os args file
  else if name = "note_create" then handleNoteCreate os args file
  else if name = "note_list" then handleNoteList os args file
  else if name = "note_read" then handleNoteRead os args file
  else if name = "note_delete" then handleNoteDelete os args file
  else if name = "generate_hash" then pureHandler handleGenerateHash os args file
  else if name = "generate_uuid" then pureHandler handleGenerateUuid os args file
  else if name = "json_format" then pureHandler handleJsonFormat os args file
  else if name = "base64_convert" then pureHandler handleBase64Convert os args file
  else .ok ([mkText ("❌ Unknown tool: " ++ name)], file)

/-- `call_tool`: the dispatch chain inside `try`, with `except Exception`
converting any raised fault into a single report item. -/
def call_tool (os : Oracle) (name : String) (args : Args) (file : Option String) :
    List ContentItem × Option String :=
  match dispatchRaw os name args file with
  | .ok v => v
  | .error e => ([mkText ("❌ Error executing " ++ (name ++ (": " ++ e)))], file)

/-- The spec's `ToolCallResult`: `Ok` (content items) or `Err` (message). -/
abbrev ToolCallResult := Except String (List ContentItem)

/-- Is a result the `Err` variant? -/
def isErr : ToolCallResult → Bool
  | .ok _ => false
  | .error _ => true

/-- The dispatch entry point as the transport binds it
(`_handle_call_tool`): `call_tool`'s items become the `Ok`/`success`
envelope; only an exception escaping `call_tool` would produce `Err`. -/
def execute (os : Oracle) (name : String) (args : Args) (file : Option String) :
    ToolCallResult :=
  .ok (call_tool os name args file).1

/-- One parameter of a tool's input schema. -/
structure ParamSpec where
  key : String
  jsonType : String
  enumVals : Option (List String)

/-- A registry entry (`Tool(name=..., description=..., inputSchema=...)`). -/
structure ToolSpec where
  name : String
  description : String
  properties : List ParamSpec
  required : List String

/-- A string-typed parameter. -/
def strParam (k : String) : ParamSpec := ⟨k, "string", none⟩

/-- A string parameter restricted to an enumerated set. -/
def enumParam (k : String) (vs : List String) : ParamSpec := ⟨k, "string", some vs⟩

/-- The registry returned by `list_tools`, in registration order. -/
def registryTools : List ToolSpec :=
  [⟨"calculate",
    "Perform mathematical calculations. Supports +, -, *, /, **, sqrt, sin, cos, tan, log, abs, round, floor, ceil.",
    [strParam ("expression")], ["expression"]⟩,
   ⟨"text_transform",
    "Transform text: uppercase, lowercase, title case, reverse, count words/chars, or slugify.",
    [strParam ("text"),
     enumParam ("operation") ["uppercase", "lowercase", "titlecase", "reverse",
       "word_count", "char_count", "slugify"]],
    ["text", "operation"]⟩,
   ⟨"system_info",
    "Get system information: current time, platform, environment variables, or working directory.",
    [enumParam ("info_type") ["time", "platform", "env", "cwd", "all"]],
    ["info_type"]⟩,
   ⟨"note_create",
    "Create a new note with a title and content. Notes are persisted to disk.",
    [strParam ("title"), strParam ("content")], ["title", "content"]⟩,
   ⟨"note_list",
    "List all saved notes with their titles and creation dates.",
    [], []⟩,
   ⟨"note_read",
    "Read the content of a specific note by title.",
    [strParam ("title")], ["title"]⟩,
   ⟨"note_delete",
    "Delete a note by title.",
    [strParam ("title")], ["title"]⟩,
   ⟨"generate_hash",
    "Generate hash of text using MD5, SHA1, SHA256, or SHA512.",
    [strParam ("text"),
     enumParam ("algorithm") ["md5", "sha1", "sha256", "sha512"]],
    ["text", "algorithm"]⟩,
   ⟨"generate_uuid",
    "Generate a random UUID (v4).",
    [⟨"count", "integer", none⟩], []⟩,
   ⟨"json_format",
    "Format, validate, or minify JSON data.",
    [strParam ("json_string"),
     enumParam ("operation") ["format", "minify", "validate"]],
    ["json_string", "operation"]⟩,
   ⟨"base64_convert",
    "Encode or decode Base64 strings.",
    [strParam ("text"), enumParam ("operation") ["encode", "decode"]],
    ["text", "operation"]⟩]

/-- The names in the registry, in order. -/
def registryNames : List String := registryTools.map (fun t => t.name)

/-- Does a present value satisfy one schema property? -/
def paramOk (p : ParamSpec) (v : PyValue) : Bool :=
  match p.jsonType, v with
  | "string", pyStr s =>
    match p.enumVals with
    | some vs => vs.contains s
    | none => true
  | "integer", pyInt _ => true
  | _, _ => false

/-- Arguments satisfy a tool's input schema: every required key is present,
and every schema-described key that is present has a value of the declared
type, inside the enumerated set when one is declared. -/
def validArgs (t : ToolSpec) (args : Args) : Bool :=
  t.required.all (fun k => (args.find? (fun p => p.1 == k)).isSome) &&
  t.properties.all (fun p =>
    match args.find? (fun q => q.1 == p.key) with
    | some q => paramOk p q.2
    | none => true)

/-- The handler bindings of the Dispatch Engine, keyed by tool name. -/
def handlerTable : List (String × Handler) :=
  [("calculate", pureHandler handleCalculate),
   ("text_transform", pureHandler handleTextTransform),
   ("system_info", pureHandler handleSystemInfo),
   ("note_create", handleNoteCreate),
   ("note_list", handleNoteList),
   ("note_read", handleNoteRead),
   ("note_delete", handleNoteDelete),
   ("generate_hash", pureHandler handleGenerateHash),
   ("generate_uuid", pureHandler handleGenerateUuid),
   ("json_format", pureHandler handleJsonFormat),
   ("base64_convert", pureHandler handleBase64Convert)]

/-- The Session Manager's state (`self.sessions`): a dict from session id
to that session's pending FIFO queue.  A closed session is absent. -/
abbrev SessionStore (α : Type) := List (String × List α)

/-- `GET /sse` connect: `self.sessions[session_id] = asyncio.Queue()`. -/
def createSession {α : Type} (st : SessionStore α) (sid : String) : SessionStore α :=
  dictSet st sid []

/-- `_handle_message`: `if session_id and session_id in self.sessions:
await self.sessions[session_id].put(data)` — a push to a missing (or
falsy) id is a silent no-op. -/
def pushEvent {α : Type} (st : SessionStore α) (sid : String) (ev : α) : SessionStore α :=
  if sid = "" then st
  else
    match dictGet st sid with
    | some q => dictSet st sid (q ++ [ev])
    | none => st

/-- Outcome of `asyncio.wait_for(self.sessions[session_id].get(), 30.0)`:
an event, a `TimeoutError` (the keepalive path), or a `KeyError` because
the id is gone from the dict. -/
inductive PopResult (α : Type) where
  | got (e : α)
  | timeout
  | keyError
deriving DecidableEq

/-- One consumer step of the SSE loop: pop the front event of the session's
queue if there is one; time out on an empty queue; `KeyError` on a gone id. -/
def popWithTimeout {α : Type} (st : SessionStore α) (sid : String) :
    PopResult α × SessionStore α :=
  match dictGet st sid with
  | none => (.keyError, st)
  | some [] => (.timeout, st)
  | some (e :: rest) => (.got e, dictSet st sid rest)

/-- Session close (`del self.sessions[session_id]` in `_handle_sse`'s
`finally`): removes the binding; `del` of an absent key raises `KeyError`. -/
def closeSession {α : Type} (st : SessionStore α) (sid : String) :
    Except String (SessionStore α) :=
  if dictHas st sid then .ok (dictErase st sid) else .error ("KeyError")

/-- A concrete environment used to instantiate universally quantified
theorems at checkable inputs. -/
def sampleOracle : Oracle where
  evalResult := fun _ => .ok "4"
  now := "2026-01-01T00:00:00"
  tzname := some "UTC"
  osSystem := "Linux"
  osRelease := "6.1"
  osVersion := "#1"
  osMachine := "x86_64"
  osProcessor := ""
  pyVersion := "3.11.0"
  cwd := "/srv"
  envGet := fun _ => none
  hashHex := fun _ _ => "0a"
  uuid4 := fun i => "uuid-" ++ toString i


/-- A note present before the crashing save below. -/
def noteA : Note := ⟨"alpha", "2024-01-01T00:00:00", "2024-01-01T00:00:00"⟩

/-- The note being added by the save that is interrupted. -/
def noteB : Note := ⟨"beta", "2024-01-02T00:00:00", "2024-01-02T00:00:00"⟩

/-- The persisted store before the interrupted save. -/
def oldNotes : NotesStore := [("a", noteA)]

/-- The store `save_notes` is writing when the write is interrupted. -/
def newNotes : NotesStore := dictSet oldNotes "b" noteB

/-- `save_notes` opens the file with mode `"w"` (truncating it) and streams
the serialization; a failure mid-write leaves a strict prefix of the new
document on disk.  This is the content after one byte. -/
def crashedFile : String := (serializeNotes newNotes).take 1

/-- Equality of `Except` values is decidable componentwise. -/
def exceptDecEq {ε α : Type} [DecidableEq ε] [DecidableEq α] :
    DecidableEq (Except ε α) := fun x y =>
  match x, y with
  | .ok a, .ok b =>
    if h : a = b then isTrue (by rw [h]) else isFalse (by intro hh; cases hh; exact h rfl)
  | .error a, .error b =>
    if h : a = b then isTrue (by rw [h]) else isFalse (by intro hh; cases hh; exact h rfl)
  | .ok _, .error _ => isFalse (by intro hh; cases hh)
  | .error _, .ok _ => isFalse (by intro hh; cases hh)

instance {ε α : Type} [DecidableEq ε] [DecidableEq α] : DecidableEq (Except ε α) :=
  exceptDecEq

theorem strHeadNe (a b : String) (h : a.length ≠ 0) : a ++ b ≠ "" := by
  intro hc
  have h2 := congrArg String.length hc
  rw [String.length_append] at h2
  rw [show ("" : String).length = 0 from rfl] at h2
  omega

theorem strFoldGe (sep : String) (l : List String) (a : String) :
    a.length ≤ (l.foldl (fun acc x => acc ++ (sep ++ x)) a).length := by
  induction l generalizing a with
  | nil => simp
  | cons x xs ih =>
    simp only [List.foldl]
    calc a.length ≤ (a ++ (sep ++ x)).length := by
          rw [String.length_append]; omega
      _ ≤ _ := ih _

theorem strJoinNe (sep a : String) (l : List String) (h : a.length ≠ 0) :
    strJoin sep (a :: l) ≠ "" := by
  intro hc
  have h2 := strFoldGe sep l a
  rw [show strJoin sep (a :: l) = l.foldl (fun acc x => acc ++ (sep ++ x)) a from rfl] at hc
  rw [hc] at h2
  rw [show ("" : String).length = 0 from rfl] at h2
  omega

theorem dictGet_cons {β : Type} (p : String × β) (d : List (String × β)) (k : String) :
    dictGet (p :: d) k = if p.1 = k then some p.2 else dictGet d k := by
  by_cases h : p.1 = k
  · simp [dictGet, List.find?, h]
  · have hb : (p.1 == k) = false := beq_eq_false_iff_ne.mpr h
    simp [dictGet, List.find?, h, hb]

theorem dictSet_cons {β : Type} (p : String × β) (d : List (String × β)) (k : String) (v : β) :
    dictSet (p :: d) k v = if p.1 = k then (p.1, v) :: d else p :: dictSet d k v := by
  by_cases h : p.1 = k <;> simp [dictSet, h]

theorem dictErase_cons {β : Type} (p : String × β) (d : List (String × β)) (k : String) :
    dictErase (p :: d) k = if p.1 = k then d else p :: dictErase d k := by
  by_cases h : p.1 = k <;> simp [dictErase, h]

theorem dictGet_dictSet_self {β : Type} (d : List (String × β)) (k : String) (v : β) :
    dictGet (dictSet d k v) k = some v := by
  induction d with
  | nil => simp [dictSet, dictGet_cons]
  | cons p rest ih =>
    by_cases h : p.1 = k <;> simp [dictSet_cons, h, dictGet_cons, ih]

theorem dictGet_eq_none {β : Type} (d : List (String × β)) (k : String)
    (h : k ∉ d.map (fun p => p.1)) : dictGet d k = none := by
  induction d with
  | nil => simp [dictGet, List.find?]
  | cons p rest ih =>
    simp only [List.map, List.mem_cons] at h
    push_neg at h
    rw [dictGet_cons, if_neg (fun hh => h.1 hh.symm)]
    exact ih h.2

theorem dictGet_dictErase_ne {β : Type} (d : List (String × β)) (k k' : String)
    (h : k' ≠ k) : dictGet (dictErase d k) k' = dictGet d k' := by
  induction d with
  | nil => simp [dictErase]
  | cons p rest ih =>
    by_cases hp : p.1 = k
    · rw [dictErase_cons, if_pos hp, dictGet_cons,
        if_neg (fun hh => h (hh.symm.trans hp))]
    · rw [dictErase_cons, if_neg hp, dictGet_cons, dictGet_cons, ih]

theorem dictGet_dictErase_self {β : Type} (d : List (String × β)) (k : String)
    (h : (d.map (fun p => p.1)).Nodup) : dictGet (dictErase d k) k = none := by
  induction d with
  | nil => simp [dictErase, dictGet, List.find?]
  | cons p rest ih =>
    simp only [List.map, List.nodup_cons] at h
    by_cases hp : p.1 = k
    · rw [dictErase_cons, if_pos hp]
      exact dictGet_eq_none rest k (hp ▸ h.1)
    · rw [dictErase_cons, if_neg hp, dictGet_cons, if_neg hp]
      exact ih h.2

theorem handleCalculate_shape (os : Oracle) (args : Args) (items : List ContentItem)
    (h : handleCalculate os args = .ok items) : ∃ s, items = [mkText s] ∧ s ≠ "" := by
  unfold handleCalculate at h
  dsimp only at h
  split at h
  · cases h
    exact ⟨_, rfl, strHeadNe _ _ (by decide)⟩
  · split at h
    · cases h
      exact ⟨_, rfl, strHeadNe _ _ (by decide)⟩
    · cases h
      exact ⟨_, rfl, strHeadNe _ _ (by decide)⟩

theorem handleTextTransform_shape (os : Oracle) (args : Args) (items : List ContentItem)
    (h : handleTextTransform os args = .ok items) : ∃ s, items = [mkText s] ∧ s ≠ "" := by
  unfold handleTextTransform at h
  cases ha : asStr (argsGet args ("text") (pyStr "")) with
  | error e =>
    rw [ha] at h
    simp only [Bind.bind, Except.bind] at h
    cases h
  | ok t =>
    rw [ha] at h
    simp only [Bind.bind, Except.bind] at h
    split at h
    · split at h
      · cases h; exact ⟨_, rfl, strHeadNe _ _ (by decide)⟩
      · cases h; exact ⟨_, rfl, strHeadNe _ _ (by decide)⟩
    · cases h; exact ⟨_, rfl, strHeadNe _ _ (by decide)⟩

theorem handleSystemInfo_shape (os : Oracle) (args : Args) (items : List ContentItem)
    (h : handleSystemInfo os args = .ok items) : ∃ s, items = [mkText s] ∧ s ≠ "" := by
  unfold handleSystemInfo at h
  dsimp only at h
  cases h
  exact ⟨_, rfl, strHeadNe _ _ (by decide)⟩

theorem handleNoteCreate_shape (os : Oracle) (args : Args) (file : Option String)
    (v : List ContentItem × Option String)
    (h : handleNoteCreate os args file = .ok v) : ∃ s, v.1 = [mkText s] ∧ s ≠ "" := by
  unfold handleNoteCreate at h
  cases ha : asStr (argsGet args ("title") (pyStr "")) with
  | error e =>
    rw [ha] at h
    simp only [Bind.bind, Except.bind] at h
    cases h
  | ok t =>
    rw [ha] at h
    simp only [Bind.bind, Except.bind] at h
    cases hb : asStr (argsGet args ("content") (pyStr "")) with
    | error e =>
      rw [hb] at h
      simp only [Bind.bind, Except.bind] at h
      cases h
    | ok c =>
      rw [hb] at h
      simp only [Bind.bind, Except.bind] at h
      split at h
      · cases h; exact ⟨_, rfl, by decide⟩
      · cases h; exact ⟨_, rfl, strHeadNe _ _ (by decide)⟩

theorem handleNoteList_shape (os : Oracle) (args : Args) (file : Option String)
    (v : List ContentItem × Option String)
    (h : handleNoteList os args file = .ok v) : ∃ s, v.1 = [mkText s] ∧ s ≠ "" := by
  unfold handleNoteList at h
  dsimp only at h
  split at h
  · cases h; exact ⟨_, rfl, by decide⟩
  · cases h
    exact ⟨_, rfl, strJoinNe _ _ _ (by decide)⟩

theorem handleNoteRead_shape (os : Oracle) (args : Args) (file : Option String)
    (v : List ContentItem × Option String)
    (h : handleNoteRead os args file = .ok v) : ∃ s, v.1 = [mkText s] ∧ s ≠ "" := by
  unfold handleNoteRead at h
  cases ha : asStr (argsGet args ("title") (pyStr "")) with
  | error e =>
    rw [ha] at h
    simp only [Bind.bind, Except.bind] at h
    cases h
  | ok t =>
    rw [ha] at h
    simp only [Bind.bind, Except.bind] at h
    split at h
    · cases h; exact ⟨_, rfl, strHeadNe _ _ (by decide)⟩
    · cases h; exact ⟨_, rfl, strHeadNe _ _ (by decide)⟩

theorem handleNoteDelete_shape (os : Oracle) (args : Args) (file : Option String)
    (v : List ContentItem × Option String)
    (h : handleNoteDelete os args file = .ok v) : ∃ s, v.1 = [mkText s] ∧ s ≠ "" := by
  unfold handleNoteDelete at h
  cases ha : asStr (argsGet args ("title") (pyStr "")) with
  | error e =>
    rw [ha] at h
    simp only [Bind.bind, Except.bind] at h
    cases h
  | ok t =>
    rw [ha] at h
    simp only [Bind.bind, Except.bind] at h
    split at h
    · cases h; exact ⟨_, rfl, strHeadNe _ _ (by decide)⟩
    · cases h; exact ⟨_, rfl, strHeadNe _ _ (by decide)⟩

theorem handleGenerateHash_shape (os : Oracle) (args : Args) (items : List ContentItem)
    (h : handleGenerateHash os args = .ok items) : ∃ s, items = [mkText s] ∧ s ≠ "" := by
  unfold handleGenerateHash at h
  dsimp only at h
  split at h
  · split at h
    · cases ha : asStr (argsGet args ("text") (pyStr "")) with
      | error e =>
        rw [ha] at h
        simp only [Bind.bind, Except.bind] at h
        cases h
      | ok t =>
        rw [ha] at h
        simp only [Bind.bind, Except.bind] at h
        cases h
        exact ⟨_, rfl, strHeadNe _ _ (by decide)⟩
    · cases h; exact ⟨_, rfl, strHeadNe _ _ (by decide)⟩
  · cases h; exact ⟨_, rfl, strHeadNe _ _ (by decide)⟩

theorem handleGenerateUuid_shape (os : Oracle) (args : Args) (items : List ContentItem)
    (h : handleGenerateUuid os args = .ok items) : ∃ s, items = [mkText s] ∧ s ≠ "" := by
  unfold handleGenerateUuid at h
  cases hm : argsGet args ("count") (pyInt 1) with
  | pyStr s =>
    rw [hm] at h
    simp only [Bind.bind, Except.bind] at h
    cases h
  | pyOther =>
    rw [hm] at h
    simp only [Bind.bind, Except.bind] at h
    cases h
  | pyInt n =>
    rw [hm] at h
    simp only [Bind.bind, Except.bind] at h
    split at h
    · cases h; exact ⟨_, rfl, strHeadNe _ _ (by decide)⟩
    · cases h; exact ⟨_, rfl, strHeadNe _ _ (by decide)⟩

theorem handleJsonFormat_shape (os : Oracle) (args : Args) (items : List ContentItem)
    (h : handleJsonFormat os args = .ok items) : ∃ s, items = [mkText s] ∧ s ≠ "" := by
  unfold handleJsonFormat at h
  dsimp only at h
  split at h
  · split at h
    · cases h; exact ⟨_, rfl, strHeadNe _ _ (by decide)⟩
    · split at h
      · cases h; exact ⟨_, rfl, by decide⟩
      · split at h
        · cases h; exact ⟨_, rfl, strHeadNe _ _ (by decide)⟩
        · cases h; exact ⟨_, rfl, strHeadNe _ _ (by decide)⟩
  · cases h

theorem handleBase64Convert_shape (os : Oracle) (args : Args) (items : List ContentItem)
    (h : handleBase64Convert os args = .ok items) : ∃ s, items = [mkText s] ∧ s ≠ "" := by
  unfold handleBase64Convert at h
  dsimp only at h
  split at h
  · split at h
    · cases h; exact ⟨_, rfl, strHeadNe _ _ (by decide)⟩
    · cases h; exact ⟨_, rfl, strHeadNe _ _ (by decide)⟩
  · split at h
    · split at h
      · cases h; exact ⟨_, rfl, strHeadNe _ _ (by decide)⟩
      · cases h; exact ⟨_, rfl, strHeadNe _ _ (by decide)⟩
    · cases h; exact ⟨_, rfl, strHeadNe _ _ (by decide)⟩

theorem pureHandler_shape (hh : Oracle → Args → Except String (List ContentItem))
    (hshape : ∀ os args items, hh os args = .ok items → ∃ s, items = [mkText s] ∧ s ≠ "")
    (os : Oracle) (args : Args) (file : Option String)
    (v : List ContentItem × Option String)
    (h : pureHandler hh os args file = .ok v) : ∃ s, v.1 = [mkText s] ∧ s ≠ "" := by
  unfold pureHandler at h
  cases hx : hh os args with
  | error e => rw [hx] at h; cases h
  | ok items =>
    rw [hx] at h
    cases h
    exact hshape os args items hx

set_option maxHeartbeats 1000000 in
theorem dispatchRaw_ok_shape (os : Oracle) (name : String) (args : Args)
    (file : Option String) (v : List ContentItem × Option String)
    (h : dispatchRaw os name args file = .ok v) : ∃ s, v.1 = [mkText s] ∧ s ≠ "" := by
  unfold dispatchRaw at h
  split_ifs at h
  · exact pureHandler_shape _ handleCalculate_shape os args file v h
  · exact pureHandler_shape _ handleTextTransform_shape os args file v h
  · exact pureHandler_shape _ handleSystemInfo_shape os args file v h
  · exact handleNoteCreate_shape os args file v h
  · exact handleNoteList_shape os args file v h
  · exact handleNoteRead_shape os args file v h
  · exact handleNoteDelete_shape os args file v h
  · exact pureHandler_shape _ handleGenerateHash_shape os args file v h
  · exact pureHandler_shape _ handleGenerateUuid_shape os args file v h
  · exact pureHandler_shape _ handleJsonFormat_shape os args file v h
  · exact pureHandler_shape _ handleBase64Convert_shape os args file v h
  · cases h; exact ⟨_, rfl, strHeadNe _ _ (by decide)⟩

theorem call_tool_shape (os : Oracle) (name : String) (args : Args)
    (file : Option String) :
    ∃ s, (call_tool os name args file).1 = [mkText s] ∧ s ≠ "" := by
  unfold call_tool
  cases hd : dispatchRaw os name args file with
  | ok v => exact dispatchRaw_ok_shape os name args file v hd
  | error e => exact ⟨_, rfl, strHeadNe _ _ (by decide)⟩

set_option maxRecDepth 8192 in
/-- C1 counterexample: `call_tool` reports an unknown tool as a normal text
item inside the `Ok`/success envelope — not the `Err` variant — and its text
is `❌ Unknown tool: <name>` (capitalised), which does not contain the
literal substring `unknown tool`. -/
theorem C1_unknown_tool_cex :
    execute sampleOracle "nonexistent_tool" [] none =
      .ok [mkText ("❌ Unknown tool: nonexistent_tool")] ∧
    isErr (execute sampleOracle "nonexistent_tool" [] none) = false ∧
    strContains ("❌ Unknown tool: nonexistent_tool") ("unknown tool") = false ∧
    "nonexistent_tool" ∉ registryNames := by decide

/-- C1 (amended): for every tool name that is not in the registry, `execute`
returns the `Ok` variant holding exactly one text item reading
`❌ Unknown tool: <name>`; it does not raise, and it does not return `Err`. -/
theorem C1_unknown_tool_report (os : Oracle) (args : Args) (file : Option String)
    (name : String) (h : name ∉ registryNames) :
    execute os name args file = .ok [mkText ("❌ Unknown tool: " ++ name)] := by
  have hn : registryNames = ["calculate", "text_transform", "system_info",
      "note_create", "note_list", "note_read", "note_delete", "generate_hash",
      "generate_uuid", "json_format", "base64_convert"] := by decide
  rw [hn] at h
  simp only [List.mem_cons, List.not_mem_nil, or_false, not_or] at h
  obtain ⟨h1, h2, h3, h4, h5, h6, h7, h8, h9, h10, h11⟩ := h
  unfold execute call_tool dispatchRaw
  rw [if_neg h1, if_neg h2, if_neg h3, if_neg h4, if_neg h5, if_neg h6,
    if_neg h7, if_neg h8, if_neg h9, if_neg h10, if_neg h11]

/-- C1 witness: the amended claim at the concrete unknown name. -/
theorem C1_unknown_tool_witness :
    "nonexistent_tool" ∉ registryNames ∧
    execute sampleOracle "nonexistent_tool" [] none =
      .ok [mkText ("❌ Unknown tool: " ++ "nonexistent_tool")] :=
  ⟨by decide, C1_unknown_tool_report sampleOracle [] none "nonexistent_tool" (by decide)⟩

set_option maxRecDepth 8192 in
/-- C2 counterexample: a fault raised inside `_handle_text_transform`
(a non-string `text`) is caught at the dispatch boundary but is converted
into a normal text item inside the `Ok` envelope — not the `Err` variant —
and the message starts with `❌ Error executing`, not with the tool name. -/
theorem C2_fault_not_err_cex :
    dispatchRaw sampleOracle "text_transform" [("text", pyInt 5)] none =
      .error ("AttributeError: int has no string methods") ∧
    execute sampleOracle "text_transform" [("text", pyInt 5)] none =
      .ok [mkText ("❌ Error executing text_transform: AttributeError: int has no string methods")] ∧
    isErr (execute sampleOracle "text_transform" [("text", pyInt 5)] none) = false ∧
    strStarts ("❌ Error executing text_transform: AttributeError: int has no string methods")
      ("text_transform") = false := by decide

/-- C2 (amended): `execute` always returns a typed `Ok` result (it never
propagates a raw exception), and any fault raised during handler execution
is caught at the dispatch boundary and converted into a single text item
reading `❌ Error executing <name>: <message>` inside the `Ok` variant. -/
theorem C2_fault_conversion :
    (∀ (os : Oracle) (name : String) (args : Args) (file : Option String),
      ∃ items, execute os name args file = Except.ok items) ∧
    (∀ (os : Oracle) (name : String) (args : Args) (file : Option String) (e : String),
      dispatchRaw os name args file = .error e →
      execute os name args file =
        .ok [mkText ("❌ Error executing " ++ (name ++ (": " ++ e)))]) := by
  constructor
  · intro os name args file
    exact ⟨_, rfl⟩
  · intro os name args file e h
    unfold execute call_tool
    rw [h]

/-- C2 witness: the amended claim at the concrete faulting input. -/
theorem C2_fault_conversion_witness :
    execute sampleOracle "text_transform" [("text", pyInt 5)] none =
      .ok [mkText ("❌ Error executing " ++ ("text_transform" ++
        (": " ++ "AttributeError: int has no string methods")))] :=
  C2_fault_conversion.2 sampleOracle "text_transform" [("text", pyInt 5)] none
    ("AttributeError: int has no string methods") (by decide)

/-- C3: executing any registered tool with schema-satisfying arguments
returns the `Ok` variant with a non-empty ContentItem sequence (in fact the
dispatch engine guarantees this for arbitrary arguments and environments). -/
theorem C3_registered_ok_nonempty (os : Oracle) (file : Option String)
    (t : ToolSpec) (args : Args) (ht : t ∈ registryTools)
    (hv : validArgs t args = true) :
    ∃ items, execute os t.name args file = .ok items ∧ items ≠ [] := by
  obtain ⟨s, hs, _⟩ := call_tool_shape os t.name args file
  refine ⟨(call_tool os t.name args file).1, rfl, ?_⟩
  rw [hs]
  simp

/-- C3 witness: the calculator with valid arguments. -/
theorem C3_registered_ok_nonempty_witness :
    validArgs (registryTools.get ⟨0, by decide⟩) [("expression", pyStr "2 + 2")] = true ∧
    ∃ items, execute sampleOracle (registryTools.get ⟨0, by decide⟩).name
      [("expression", pyStr "2 + 2")] none = .ok items ∧ items ≠ [] :=
  ⟨by decide,
   C3_registered_ok_nonempty sampleOracle none _ _
     (List.get_mem registryTools 0 (by decide)) (by decide)⟩

/-- C4: base64 round-trip.  Encoding `"Hello"` produces the base64 string
`SGVsbG8=` (inside the handler's decoration), and executing the decode
operation on that produced base64 string yields back `"Hello"`. -/
theorem C4_base64_roundtrip (os : Oracle) (file : Option String) :
    execute os "base64_convert" [("text", pyStr "Hello"), ("operation", pyStr "encode")] file =
      .ok [mkText ("🔤 Encoded:\n`" ++ (b64encodeStr "Hello" ++ "`"))] ∧
    b64encodeStr "Hello" = "SGVsbG8=" ∧
    execute os "base64_convert" [("text", pyStr "SGVsbG8="), ("operation", pyStr "decode")] file =
      .ok [mkText ("🔤 Decoded:\n`" ++ ("Hello" ++ "`"))] := by
  refine ⟨rfl, by decide, ?_⟩
  rfl

/-- C5: events pushed to an open session are delivered to that session's
consumer in FIFO order: with session `S` open and its queue empty, pushing
`E1, E2, E3` in that order and popping three times yields `E1, E2, E3` in
that order.  (Session ids are fresh UUID strings, hence non-empty.) -/
theorem C5_session_fifo {α : Type} (st : SessionStore α) (sid : String) (e1 e2 e3 : α)
    (hsid : sid ≠ "") (hq : dictGet st sid = some []) :
    (popWithTimeout (pushEvent (pushEvent (pushEvent st sid e1) sid e2) sid e3) sid).1 =
      .got e1 ∧
    (popWithTimeout (popWithTimeout
      (pushEvent (pushEvent (pushEvent st sid e1) sid e2) sid e3) sid).2 sid).1 = .got e2 ∧
    (popWithTimeout (popWithTimeout (popWithTimeout
      (pushEvent (pushEvent (pushEvent st sid e1) sid e2) sid e3) sid).2 sid).2 sid).1 =
      .got e3 := by
  have hp1 : pushEvent st sid e1 = dictSet st sid [e1] := by
    unfold pushEvent
    rw [if_neg hsid, hq]
    rfl
  have hp2 : pushEvent (dictSet st sid [e1]) sid e2 =
      dictSet (dictSet st sid [e1]) sid [e1, e2] := by
    unfold pushEvent
    rw [if_neg hsid, dictGet_dictSet_self]
    rfl
  have hp3 : pushEvent (dictSet (dictSet st sid [e1]) sid [e1, e2]) sid e3 =
      dictSet (dictSet (dictSet st sid [e1]) sid [e1, e2]) sid [e1, e2, e3] := by
    unfold pushEvent
    rw [if_neg hsid, dictGet_dictSet_self]
    rfl
  rw [hp1, hp2, hp3]
  have hpop1 : popWithTimeout
      (dictSet (dictSet (dictSet st sid [e1]) sid [e1, e2]) sid [e1, e2, e3]) sid =
      (.got e1, dictSet (dictSet (dictSet (dictSet st sid [e1]) sid [e1, e2]) sid
        [e1, e2, e3]) sid [e2, e3]) := by
    unfold popWithTimeout
    rw [dictGet_dictSet_self]
  rw [hpop1]
  have hpop2 : popWithTimeout (dictSet (dictSet (dictSet (dictSet st sid [e1]) sid
      [e1, e2]) sid [e1, e2, e3]) sid [e2, e3]) sid =
      (.got e2, dictSet (dictSet (dictSet (dictSet (dictSet st sid [e1]) sid [e1, e2]) sid
        [e1, e2, e3]) sid [e2, e3]) sid [e3]) := by
    unfold popWithTimeout
    rw [dictGet_dictSet_self]
  rw [hpop2]
  have hpop3 : popWithTimeout (dictSet (dictSet (dictSet (dictSet (dictSet st sid [e1]) sid
      [e1, e2]) sid [e1, e2, e3]) sid [e2, e3]) sid [e3]) sid =
      (.got e3, dictSet (dictSet (dictSet (dictSet (dictSet (dictSet st sid [e1]) sid
        [e1, e2]) sid [e1, e2, e3]) sid [e2, e3]) sid [e3]) sid []) := by
    unfold popWithTimeout
    rw [dictGet_dictSet_self]
  rw [hpop3]
  exact ⟨rfl, rfl, rfl⟩

/-- C5 witness: the FIFO guarantee at a concrete fresh session. -/
theorem C5_session_fifo_witness :
    (popWithTimeout (pushEvent (pushEvent (pushEvent [("s", ([] : List Nat))] "s" 1) "s" 2)
      "s" 3) "s").1 = .got 1 ∧
    (popWithTimeout (popWithTimeout (pushEvent (pushEvent (pushEvent
      [("s", ([] : List Nat))] "s" 1) "s" 2) "s" 3) "s").2 "s").1 = .got 2 ∧
    (popWithTimeout (popWithTimeout (popWithTimeout (pushEvent (pushEvent (pushEvent
      [("s", ([] : List Nat))] "s" 1) "s" 2) "s" 3) "s").2 "s").2 "s").1 = .got 3 :=
  C5_session_fifo [("s", [])] "s" 1 2 3 (by decide) rfl

/-- C6: pushing an event to a session id that is absent from the session
dict (never created, or already closed and so deleted) returns without
error and leaves the entire session-manager state unchanged. -/
theorem C6_dead_session_push_noop {α : Type} (st : SessionStore α) (sid : String)
    (ev : α) (h : dictGet st sid = none) : pushEvent st sid ev = st := by
  unfold pushEvent
  by_cases hs : sid = ""
  · rw [if_pos hs]
  · rw [if_neg hs, h]

/-- C6 witness: a push to an unknown id over a non-trivial state. -/
theorem C6_dead_session_push_noop_witness :
    pushEvent [("a", [1]), ("b", ([2] : List Nat))] "c" 9 = [("a", [1]), ("b", [2])] :=
  C6_dead_session_push_noop [("a", [1]), ("b", [2])] "c" 9 (by decide)

/-- C7 counterexample: closing is not idempotent — closing a session removes
it from the dict, and a second `del self.sessions[sid]` raises `KeyError`;
moreover a pop after close reports `KeyError`, not a closed signal. -/
theorem C7_close_not_idempotent_cex :
    closeSession ([("s", ([] : List Nat))]) "s" = .ok [] ∧
    closeSession ([] : SessionStore Nat) "s" = .error ("KeyError") ∧
    (match closeSession ([("s", ([] : List Nat))]) "s" with
     | .ok st1 => closeSession st1 "s"
     | .error e => .error e) = .error ("KeyError") ∧
    (popWithTimeout ([] : SessionStore Nat) "s").1 = PopResult.keyError := by decide

/-- C7 (amended): closing an existing session removes exactly its queue
(other sessions' queues are untouched); a second close of the same id
raises `KeyError` instead of being idempotent; and the code sends no
"closed" signal — a pop on the closed id reports `KeyError`, while a
consumer already suspended on the (unchanged, empty) queue can only time
out. -/
theorem C7_close_behaviour {α : Type} (st : SessionStore α) (sid : String)
    (hnd : (st.map (fun p => p.1)).Nodup) (h : dictHas st sid = true) :
    closeSession st sid = .ok (dictErase st sid) ∧
    closeSession (dictErase st sid) sid = .error ("KeyError") ∧
    (popWithTimeout (dictErase st sid) sid).1 = PopResult.keyError ∧
    ∀ sid2, sid2 ≠ sid → dictGet (dictErase st sid) sid2 = dictGet st sid2 := by
  have hgone : dictGet (dictErase st sid) sid = none :=
    dictGet_dictErase_self st sid hnd
  have hhas : dictHas (dictErase st sid) sid = false := by
    unfold dictHas
    rw [hgone]
    rfl
  refine ⟨?_, ?_, ?_, ?_⟩
  · unfold closeSession
    rw [if_pos h]
  · unfold closeSession
    rw [if_neg (by simp [hhas])]
  · unfold popWithTimeout
    rw [hgone]
  · intro sid2 h2
    exact dictGet_dictErase_ne st sid sid2 h2

/-- C7 witness: the amended behaviour at a concrete two-session state. -/
theorem C7_close_behaviour_witness :
    closeSession [("s", [5]), ("t", ([7] : List Nat))] "s" =
      .ok (dictErase [("s", [5]), ("t", [7])] "s") ∧
    closeSession (dictErase [("s", [5]), ("t", ([7] : List Nat))] "s") "s" =
      .error ("KeyError") ∧
    (popWithTimeout (dictErase [("s", [5]), ("t", ([7] : List Nat))] "s") "s").1 =
      PopResult.keyError ∧
    dictGet (dictErase [("s", [5]), ("t", ([7] : List Nat))] "s") "t" =
      dictGet [("s", [5]), ("t", [7])] "t" :=
  have hm := C7_close_behaviour [("s", [5]), ("t", [7])] "s" (by decide) (by decide)
  ⟨hm.1, hm.2.1, hm.2.2.1, hm.2.2.2 "t" (by decide)⟩

set_option maxRecDepth 8192 in
/-- C8 counterexample: `save_notes` rewrites the file in place (truncating
`open(..., "w")`, then streaming `json.dump`), so an interrupted save leaves
a strict prefix of the new document; `load_notes` maps it to the empty
store, which is neither the old nor the new document. -/
theorem C8_partial_write_cex :
    loadNotes (some (serializeNotes oldNotes)) = oldNotes ∧
    loadNotes (some (serializeNotes newNotes)) = newNotes ∧
    loadNotes (some crashedFile) = [] ∧
    oldNotes ≠ [] ∧ newNotes ≠ [] := by decide

set_option maxRecDepth 8192 in
/-- C8 (amended): persistence is a whole-document read-modify-write, but the
in-place write is not atomic: `load_notes` maps any content it cannot parse
to the empty store, so a failure in the middle of a save can leave callers
observing the empty store — neither the old nor the new document (witnessed
by the concrete crash of `crashedFile`). -/
theorem C8_crash_observation :
    (∀ c : String, (parseJson c).isOk = false → loadNotes (some c) = []) ∧
    (∃ k, k < (serializeNotes newNotes).length ∧
      crashedFile = (serializeNotes newNotes).take k ∧
      loadNotes (some (serializeNotes oldNotes)) = oldNotes ∧
      loadNotes (some (serializeNotes newNotes)) = newNotes ∧
      loadNotes (some crashedFile) = [] ∧
      loadNotes (some crashedFile) ≠ oldNotes ∧
      loadNotes (some crashedFile) ≠ newNotes) := by
  constructor
  · intro c h
    cases hp : parseJson c with
    | ok v =>
      rw [hp] at h
      cases h
    | error e =>
      simp [loadNotes, hp]
  · exact ⟨1, by decide, rfl, by decide, by decide, by decide, by decide, by decide⟩

/-- C8 witness: the caught-parse-failure clause at the concrete crashed
file content, a single opening brace. -/
theorem C8_crash_observation_witness :
    (parseJson ("\x7b")).isOk = false ∧ loadNotes (some ("\x7b")) = [] :=
  ⟨by decide, C8_crash_observation.1 ("\x7b") (by decide)⟩

/-- C9: the registry's names coincide (in order) with the dispatch engine's
handler bindings, each name is bound exactly once (the binding list is
duplicate-free), and dispatch equals handler-table lookup: a registered
name always reaches its unique handler, and exactly the unregistered names
produce the `❌ Unknown tool` report. -/
theorem C9_registry_handler_coincidence :
    registryNames = handlerTable.map (fun p => p.1) ∧
    (handlerTable.map (fun p => p.1)).Nodup ∧
    ∀ (os : Oracle) (name : String) (args : Args) (file : Option String),
      dispatchRaw os name args file =
        (match dictGet handlerTable name with
         | some h => h os args file
         | none => .ok ([mkText ("❌ Unknown tool: " ++ name)], file)) := by
  refine ⟨by decide, by decide, ?_⟩
  intro os name args file
  by_cases h1 : name = "calculate"
  · subst h1; rfl
  by_cases h2 : name = "text_transform"
  · subst h2; rfl
  by_cases h3 : name = "system_info"
  · subst h3; rfl
  by_cases h4 : name = "note_create"
  · subst h4; rfl
  by_cases h5 : name = "note_list"
  · subst h5; rfl
  by_cases h6 : name = "note_read"
  · subst h6; rfl
  by_cases h7 : name = "note_delete"
  · subst h7; rfl
  by_cases h8 : name = "generate_hash"
  · subst h8; rfl
  by_cases h9 : name = "generate_uuid"
  · subst h9; rfl
  by_cases h10 : name = "json_format"
  · subst h10; rfl
  by_cases h11 : name = "base64_convert"
  · subst h11; rfl
  have hnone : dictGet handlerTable name = none := by
    apply dictGet_eq_none
    intro hmem
    simp only [handlerTable, List.map, List.mem_cons, List.not_mem_nil, or_false] at hmem
    rcases hmem with hh | hh | hh | hh | hh | hh | hh | hh | hh | hh | hh
    · exact h1 hh
    · exact h2 hh
    · exact h3 hh
    · exact h4 hh
    · exact h5 hh
    · exact h6 hh
    · exact h7 hh
    · exact h8 hh
    · exact h9 hh
    · exact h10 hh
    · exact h11 hh
  unfold dispatchRaw
  rw [hnone, if_neg h1, if_neg h2, if_neg h3, if_neg h4, if_neg h5, if_neg h6,
    if_neg h7, if_neg h8, if_neg h9, if_neg h10, if_neg h11]

/-- C10: for every tool name (registered or not), every argument mapping,
every oracle and every notes-file state, `call_tool` returns a sequence of
exactly one ContentItem, of kind `text`, with a non-empty payload — on the
success path, the unknown-tool path, and every caught-fault path. -/
theorem C10_single_text_item (os : Oracle) (name : String) (args : Args)
    (file : Option String) :
    ∃ s, (call_tool os name args file).1 = [mkText s] ∧ s ≠ "" :=
  call_tool_shape os name args file
